import Mathlib

/-!
Shallow embedding of `src/app.py` (The Royal EV Charging Calculator).

Timestamps are modelled as rational numbers of seconds since a fixed
local-time epoch that falls at a midnight (the code assumes one fixed
local reference time, so `datetime.replace(hour=0, minute=0, second=0,
microsecond=0)` is flooring to a multiple of 86400 seconds).
Durations are rational numbers of seconds (the CSV admits integer or
float durations).  Python's `int(x // 3600)` on these values is
mathematical floor division, i.e. `Int.floor (x / 3600)`.
-/

/-- One CSV row as consumed by `calculate_billable_idle_hours` and the
cost loop: the QR code name, the power usage, and the three timing
fields `Session Start`, `Charge Time (s)`, `Idle Time (s)`. -/
structure Row where
  qrCodeName : String
  powerUsageKwh : ℚ
  sessionStart : ℚ
  chargeTimeSeconds : ℚ
  idleTimeSeconds : ℚ
deriving Repr, DecidableEq

/-- Embedding of `session_start.replace(hour=0, minute=0, second=0,
microsecond=0)`: midnight of the calendar day containing `t`. -/
def midnightStartOfDay (t : ℚ) : ℚ := 86400 * (⌊t / 86400⌋ : ℤ)

/-- Embedding of `charge_end = session_start + timedelta(seconds=charge_time_seconds)`. -/
def chargeEnd (row : Row) : ℚ := row.sessionStart + row.chargeTimeSeconds

/-- Embedding of `session_end = charge_end + timedelta(seconds=idle_time_seconds)`. -/
def sessionEnd (row : Row) : ℚ := chargeEnd row + row.idleTimeSeconds

/-- Embedding of `hour_24_from_start_of_day` (midnight at the end of the start day). -/
def hour24FromStartOfDay (row : Row) : ℚ := midnightStartOfDay row.sessionStart + 86400

/-- Embedding of `hour_31_from_start_of_day` (7 AM the next day). -/
def hour31FromStartOfDay (row : Row) : ℚ := midnightStartOfDay row.sessionStart + 111600

/-- Embedding of `calculate_billable_idle_hours` from `src/app.py`
(lines 15-71), translated branch by branch:
if `session_end <= hour_24` it returns `int(idle_time_seconds // 3600)`;
otherwise it adds `int(max(0, hour_24 - charge_end) // 3600)` when
`charge_end < hour_24`, and adds
`int(max(0, session_end - max(charge_end, hour_31)) // 3600)` when
`session_end > hour_31`. -/
def calculate_billable_idle_hours (row : Row) : ℤ :=
  let charge_end := chargeEnd row
  let session_end := sessionEnd row
  let hour_24 := hour24FromStartOfDay row
  let hour_31 := hour31FromStartOfDay row
  if session_end ≤ hour_24 then
    ⌊row.idleTimeSeconds / 3600⌋
  else
    (if charge_end < hour_24 then ⌊max 0 (hour_24 - charge_end) / 3600⌋ else 0) +
    (if hour_31 < session_end then ⌊max 0 (session_end - max charge_end hour_31) / 3600⌋ else 0)

/-- A well-formed session: `idle_end >= charge_end >= session_start`,
i.e. both durations are non-negative. -/
def WellFormed (row : Row) : Prop :=
  0 ≤ row.chargeTimeSeconds ∧ 0 ≤ row.idleTimeSeconds

instance (row : Row) : Decidable (WellFormed row) := by
  unfold WellFormed; infer_instance

section SpecSide

/-!
Spec-side definitions, written from the words of the specification (for
refinement comparison with the code above).
-/

/-- Spec-side rule term C, first term: the measure of
`[charge_end, idle_end)` intersected with `[charge_end, H24)`, counted
only when `charge_end < H24`. -/
def specTermC_beforeH24 (row : Row) : ℚ :=
  if chargeEnd row < hour24FromStartOfDay row then
    max 0 (min (sessionEnd row) (hour24FromStartOfDay row) - chargeEnd row)
  else 0

/-- Spec-side rule term C, second term: the measure of
`[max(charge_end, H31), idle_end)`, counted only when `idle_end > H31`. -/
def specTermC_afterH31 (row : Row) : ℚ :=
  if hour31FromStartOfDay row < sessionEnd row then
    max 0 (sessionEnd row - max (chargeEnd row) (hour31FromStartOfDay row))
  else 0

/-- Spec-side evaluator for rule term C as the specification words it:
sum the terms' chargeable seconds, then floor the total once:
`billable_hours = floor(total_chargeable_seconds / 3600)`. -/
def specRuleC_floorOnce (row : Row) : ℤ :=
  ⌊(specTermC_beforeH24 row + specTermC_afterH31 row) / 3600⌋

end SpecSide

section ClosedForm

/-!
Closed-form (guard-free) versions of the two chargeable measures of the
day-relative rule, and the proof that the code's branches compute
exactly the per-term floors of those measures.
-/

/-- Guard-free form of the "before H24" chargeable measure. -/
def measBeforeH24 (row : Row) : ℚ :=
  max 0 (min (sessionEnd row) (hour24FromStartOfDay row) - chargeEnd row)

/-- Guard-free form of the "after H31" chargeable measure. -/
def measAfterH31 (row : Row) : ℚ :=
  max 0 (sessionEnd row - max (chargeEnd row) (hour31FromStartOfDay row))

lemma hour31_eq_hour24_add (row : Row) :
    hour31FromStartOfDay row = hour24FromStartOfDay row + 25200 := by
  unfold hour31FromStartOfDay hour24FromStartOfDay
  ring

lemma sessionEnd_eq (row : Row) :
    sessionEnd row = chargeEnd row + row.idleTimeSeconds := rfl

lemma specTermC_beforeH24_eq_meas (row : Row) :
    specTermC_beforeH24 row = measBeforeH24 row := by
  unfold specTermC_beforeH24 measBeforeH24
  split_ifs with h
  · rfl
  · rw [max_eq_left]
    have : min (sessionEnd row) (hour24FromStartOfDay row) ≤ hour24FromStartOfDay row :=
      min_le_right _ _
    linarith [not_lt.mp h]

lemma specTermC_afterH31_eq_meas (row : Row) :
    specTermC_afterH31 row = measAfterH31 row := by
  unfold specTermC_afterH31 measAfterH31
  split_ifs with h
  · rfl
  · rw [max_eq_left]
    have : hour31FromStartOfDay row ≤ max (chargeEnd row) (hour31FromStartOfDay row) :=
      le_max_right _ _
    linarith [not_lt.mp h]

/-- The code's evaluator equals the sum of the per-term floors of the two
chargeable measures of the day-relative rule. -/
lemma measBeforeH24_of_late_charge (row : Row)
    (h : hour24FromStartOfDay row ≤ chargeEnd row) : measBeforeH24 row = 0 := by
  unfold measBeforeH24
  rw [max_eq_left]
  have := min_le_right (sessionEnd row) (hour24FromStartOfDay row)
  linarith

lemma measAfterH31_of_early_end (row : Row)
    (h : sessionEnd row ≤ hour31FromStartOfDay row) : measAfterH31 row = 0 := by
  unfold measAfterH31
  rw [max_eq_left]
  have := le_max_right (chargeEnd row) (hour31FromStartOfDay row)
  linarith

lemma calc_eq_perTermFloor (row : Row) (hi : 0 ≤ row.idleTimeSeconds) :
    calculate_billable_idle_hours row =
      ⌊measBeforeH24 row / 3600⌋ + ⌊measAfterH31 row / 3600⌋ := by
  have hse : sessionEnd row = chargeEnd row + row.idleTimeSeconds := rfl
  have h31 : hour31FromStartOfDay row = hour24FromStartOfDay row + 25200 :=
    hour31_eq_hour24_add row
  simp only [calculate_billable_idle_hours]
  by_cases h1 : sessionEnd row ≤ hour24FromStartOfDay row
  · -- session ends at or before the first midnight
    rw [if_pos h1]
    have hm2 : measAfterH31 row = 0 := measAfterH31_of_early_end row (by linarith)
    have hm1 : measBeforeH24 row = row.idleTimeSeconds := by
      unfold measBeforeH24
      rw [min_eq_left h1, hse]
      rw [max_eq_right] <;> linarith
    rw [hm1, hm2]
    norm_num
  · -- session crosses the first midnight
    rw [if_neg h1]
    push_neg at h1
    have e1 :
        (if chargeEnd row < hour24FromStartOfDay row then
            ⌊max 0 (hour24FromStartOfDay row - chargeEnd row) / 3600⌋ else 0) =
          ⌊measBeforeH24 row / 3600⌋ := by
      by_cases h2 : chargeEnd row < hour24FromStartOfDay row
      · rw [if_pos h2]
        unfold measBeforeH24
        rw [min_eq_right (le_of_lt h1)]
      · rw [if_neg h2, measBeforeH24_of_late_charge row (not_lt.mp h2)]
        norm_num
    have e2 :
        (if hour31FromStartOfDay row < sessionEnd row then
            ⌊max 0 (sessionEnd row - max (chargeEnd row) (hour31FromStartOfDay row)) / 3600⌋
          else 0) = ⌊measAfterH31 row / 3600⌋ := by
      by_cases h2 : hour31FromStartOfDay row < sessionEnd row
      · rw [if_pos h2]
        rfl
      · rw [if_neg h2, measAfterH31_of_early_end row (not_lt.mp h2)]
        norm_num
    rw [e1, e2]

end ClosedForm

/-- Spec test vector for rule C: session starting 2024-01-01 08:00 local
(28800 seconds past the epoch midnight), zero charge duration, 30 hours
(108000 seconds) of idle time. -/
def rowC3 : Row :=
  { qrCodeName := "CP-1", powerUsageKwh := 1, sessionStart := 28800,
    chargeTimeSeconds := 0, idleTimeSeconds := 108000 }

/-- Counterexample session for the once-floored reading: starts
2024-01-01 08:30 (30600 seconds), zero charge duration, 23 hours
(82800 seconds) of idle time, so both chargeable spans have a half-hour
remainder. -/
def rowHalfPast : Row :=
  { qrCodeName := "CP-1", powerUsageKwh := 1, sessionStart := 30600,
    chargeTimeSeconds := 0, idleTimeSeconds := 82800 }

/-- C1 counterexample: on a well-formed session starting at 08:30 with 23
hours of idle time, the two chargeable spans measure 15.5h and 0.5h; the
code floors each term separately and returns 15, while the claimed
once-floored total `floor((15.5h + 0.5h)/3600) = 16`. -/
theorem C1_floor_once_counterexample :
    WellFormed rowHalfPast ∧
    calculate_billable_idle_hours rowHalfPast = 15 ∧
    specRuleC_floorOnce rowHalfPast = 16 := by
  refine ⟨by decide, ?_, ?_⟩
  · norm_num [calculate_billable_idle_hours, chargeEnd, sessionEnd,
      hour24FromStartOfDay, hour31FromStartOfDay, midnightStartOfDay, rowHalfPast]
  · norm_num [specRuleC_floorOnce, specTermC_beforeH24, specTermC_afterH31,
      chargeEnd, sessionEnd,
      hour24FromStartOfDay, hour31FromStartOfDay, midnightStartOfDay, rowHalfPast]

/-- C1 (amended): for every well-formed session, the evaluator returns
the sum of the per-term floors of rule C's chargeable measures — the
"before H24" term and the "after H31" term — with the floor applied to
each term separately, not once to the summed seconds. -/
theorem C1_ruleC_per_term_floor (row : Row)
    (hc : 0 ≤ row.chargeTimeSeconds) (hi : 0 ≤ row.idleTimeSeconds) :
    calculate_billable_idle_hours row =
      ⌊specTermC_beforeH24 row / 3600⌋ + ⌊specTermC_afterH31 row / 3600⌋ := by
  rw [specTermC_beforeH24_eq_meas, specTermC_afterH31_eq_meas]
  exact calc_eq_perTermFloor row hi

/-- Witness for C1 (amended) at the rule-C spec test vector. -/
theorem C1_ruleC_per_term_floor_witness :
    calculate_billable_idle_hours rowC3 =
      ⌊specTermC_beforeH24 rowC3 / 3600⌋ + ⌊specTermC_afterH31 rowC3 / 3600⌋ :=
  C1_ruleC_per_term_floor rowC3 (by norm_num [rowC3]) (by norm_num [rowC3])

/-- C3: the spec's rule-C test vector — session starting 2024-01-01
08:00, zero charge duration, 30h idle — yields exactly 23 billable
hours: 16 from `[08:00 day1, 00:00 day2)` and 7 from
`[07:00 day2, 14:00 day2)`. -/
theorem C3_ruleC_test_vector :
    calculate_billable_idle_hours rowC3 = 23 ∧
    ⌊specTermC_beforeH24 rowC3 / 3600⌋ = 16 ∧
    ⌊specTermC_afterH31 rowC3 / 3600⌋ = 7 := by
  refine ⟨?_, ?_, ?_⟩
  · norm_num [calculate_billable_idle_hours, chargeEnd, sessionEnd,
      hour24FromStartOfDay, hour31FromStartOfDay, midnightStartOfDay, rowC3]
  · norm_num [specTermC_beforeH24, chargeEnd, sessionEnd,
      hour24FromStartOfDay, midnightStartOfDay, rowC3]
  · norm_num [specTermC_afterH31, chargeEnd, sessionEnd,
      hour24FromStartOfDay, hour31FromStartOfDay, midnightStartOfDay, rowC3]

/-- Malformed session: `idle_end < charge_end` (negative idle duration of
one hour), starting at the epoch midnight with zero charge duration. -/
def rowNegIdle : Row :=
  { qrCodeName := "CP-1", powerUsageKwh := 1, sessionStart := 0,
    chargeTimeSeconds := 0, idleTimeSeconds := -3600 }

/-- C2 counterexample: on the malformed session with a negative idle
duration the code raises nothing and reports no input-contract error; it
silently returns the numeric result -1. -/
theorem C2_malformed_counterexample :
    rowNegIdle.idleTimeSeconds < 0 ∧
    calculate_billable_idle_hours rowNegIdle = -1 := by
  constructor
  · norm_num [rowNegIdle]
  · norm_num [calculate_billable_idle_hours, chargeEnd, sessionEnd,
      hour24FromStartOfDay, hour31FromStartOfDay, midnightStartOfDay, rowNegIdle]

/-- C2 (amended): the evaluator is a total function; on malformed input
(`idle_end < charge_end`) it reports no error and silently returns a
number: a negative integer when the (backwards) session end lies at or
before H24, and a silently clamped 0 when it lies after H24. -/
theorem C2_malformed_silent_numeric (row : Row) (h : row.idleTimeSeconds < 0) :
    (sessionEnd row ≤ hour24FromStartOfDay row →
      calculate_billable_idle_hours row < 0) ∧
    (hour24FromStartOfDay row < sessionEnd row →
      calculate_billable_idle_hours row = 0) := by
  have hse : sessionEnd row = chargeEnd row + row.idleTimeSeconds := rfl
  constructor
  · intro h1
    simp only [calculate_billable_idle_hours]
    rw [if_pos h1]
    have hneg : row.idleTimeSeconds / 3600 < 0 :=
      div_neg_of_neg_of_pos h (by norm_num)
    exact_mod_cast Int.floor_lt.mpr (by exact_mod_cast hneg)
  · intro h1
    have hce : sessionEnd row < chargeEnd row := by linarith [hse.ge, hse.le, h]
    simp only [calculate_billable_idle_hours]
    rw [if_neg (not_le.mpr h1)]
    have t1 : ¬ chargeEnd row < hour24FromStartOfDay row := by
      push_neg
      linarith
    rw [if_neg t1]
    by_cases h2 : hour31FromStartOfDay row < sessionEnd row
    · rw [if_pos h2]
      rw [max_eq_left (a := (0 : ℚ))]
      · norm_num
      · have := le_max_left (chargeEnd row) (hour31FromStartOfDay row)
        linarith
    · rw [if_neg h2]
      norm_num

/-- Witness for C2 (amended) at the concrete malformed session. -/
theorem C2_malformed_silent_numeric_witness :
    (sessionEnd rowNegIdle ≤ hour24FromStartOfDay rowNegIdle →
      calculate_billable_idle_hours rowNegIdle < 0) ∧
    (hour24FromStartOfDay rowNegIdle < sessionEnd rowNegIdle →
      calculate_billable_idle_hours rowNegIdle = 0) :=
  C2_malformed_silent_numeric rowNegIdle (by norm_num [rowNegIdle])

/-- C4: a session with zero idle duration yields zero billable hours,
whatever its start time and (non-negative) charge duration. -/
theorem C4_zero_idle_returns_zero (row : Row)
    (hc : 0 ≤ row.chargeTimeSeconds) (hi : row.idleTimeSeconds = 0) :
    calculate_billable_idle_hours row = 0 := by
  rw [calc_eq_perTermFloor row (le_of_eq hi.symm)]
  have hse : sessionEnd row = chargeEnd row := by
    rw [sessionEnd_eq, hi, add_zero]
  have hm1 : measBeforeH24 row = 0 := by
    unfold measBeforeH24
    rw [max_eq_left]
    have := min_le_left (sessionEnd row) (hour24FromStartOfDay row)
    linarith [hse.le]
  have hm2 : measAfterH31 row = 0 := by
    unfold measAfterH31
    rw [max_eq_left]
    have := le_max_left (chargeEnd row) (hour31FromStartOfDay row)
    linarith [hse.le]
  rw [hm1, hm2]
  norm_num

/-- Witness for C4 at a session starting 2024-01-01 10:00 with a one-hour
charge and no idle time. -/
theorem C4_zero_idle_returns_zero_witness :
    calculate_billable_idle_hours
      { qrCodeName := "CP-2", powerUsageKwh := 3, sessionStart := 36000,
        chargeTimeSeconds := 3600, idleTimeSeconds := 0 } = 0 :=
  C4_zero_idle_returns_zero _ (by norm_num) (by norm_num)

/-- C5: for every well-formed session the evaluator's result is a
non-negative integer. -/
theorem C5_result_nonneg (row : Row)
    (hc : 0 ≤ row.chargeTimeSeconds) (hi : 0 ≤ row.idleTimeSeconds) :
    0 ≤ calculate_billable_idle_hours row := by
  rw [calc_eq_perTermFloor row hi]
  have t1 : (0 : ℤ) ≤ ⌊measBeforeH24 row / 3600⌋ := by
    apply Int.floor_nonneg.mpr
    apply div_nonneg _ (by norm_num)
    exact le_max_left 0 _
  have t2 : (0 : ℤ) ≤ ⌊measAfterH31 row / 3600⌋ := by
    apply Int.floor_nonneg.mpr
    apply div_nonneg _ (by norm_num)
    exact le_max_left 0 _
  linarith

/-- Witness for C5 at the rule-C spec test vector. -/
theorem C5_result_nonneg_witness :
    0 ≤ calculate_billable_idle_hours rowC3 :=
  C5_result_nonneg rowC3 (by norm_num [rowC3]) (by norm_num [rowC3])

/-- C8: the evaluator is a pure function of the three timing fields: any
two rows that agree on `Session Start`, `Charge Time (s)` and
`Idle Time (s)` — however they differ in `QR Code Name` or
`Power Usage (kWh)` — get the identical billable-hours result, and
re-evaluation of the same row trivially returns the same value. -/
theorem C8_deterministic_timing_only (r1 r2 : Row)
    (hs : r1.sessionStart = r2.sessionStart)
    (hc : r1.chargeTimeSeconds = r2.chargeTimeSeconds)
    (hi : r1.idleTimeSeconds = r2.idleTimeSeconds) :
    calculate_billable_idle_hours r1 = calculate_billable_idle_hours r2 := by
  simp only [calculate_billable_idle_hours, sessionEnd, chargeEnd,
    hour24FromStartOfDay, hour31FromStartOfDay, midnightStartOfDay, hs, hc, hi]

/-- Witness for C8: two rows sharing timing fields but with different
station names and power readings evaluate identically. -/
theorem C8_deterministic_timing_only_witness :
    calculate_billable_idle_hours
      { qrCodeName := "CP-1", powerUsageKwh := 1, sessionStart := 28800,
        chargeTimeSeconds := 0, idleTimeSeconds := 108000 } =
    calculate_billable_idle_hours
      { qrCodeName := "CP-9", powerUsageKwh := 42, sessionStart := 28800,
        chargeTimeSeconds := 0, idleTimeSeconds := 108000 } :=
  C8_deterministic_timing_only _ _ (by norm_num) (by norm_num) (by norm_num)

/-- C9: for a fixed session start and charge duration, the evaluator is
monotonically non-decreasing in the idle duration, including across the
H24 and H31 branch boundaries. -/
theorem C9_monotone_in_idle (row : Row) (j : ℚ)
    (h0 : 0 ≤ row.idleTimeSeconds) (hij : row.idleTimeSeconds ≤ j) :
    calculate_billable_idle_hours row ≤
      calculate_billable_idle_hours { row with idleTimeSeconds := j } := by
  have h0' : (0 : ℚ) ≤ j := le_trans h0 hij
  rw [calc_eq_perTermFloor row h0,
    calc_eq_perTermFloor { row with idleTimeSeconds := j } h0']
  have hce : chargeEnd { row with idleTimeSeconds := j } = chargeEnd row := rfl
  have h24 : hour24FromStartOfDay { row with idleTimeSeconds := j } =
      hour24FromStartOfDay row := rfl
  have h31 : hour31FromStartOfDay { row with idleTimeSeconds := j } =
      hour31FromStartOfDay row := rfl
  have hse : sessionEnd row ≤ sessionEnd { row with idleTimeSeconds := j } := by
    have a1 : sessionEnd row = chargeEnd row + row.idleTimeSeconds := rfl
    have a2 : sessionEnd { row with idleTimeSeconds := j } = chargeEnd row + j := rfl
    rw [a1, a2]
    linarith
  have m1 : measBeforeH24 row ≤ measBeforeH24 { row with idleTimeSeconds := j } := by
    unfold measBeforeH24
    rw [hce, h24]
    exact max_le_max le_rfl (sub_le_sub_right (min_le_min hse le_rfl) _)
  have m2 : measAfterH31 row ≤ measAfterH31 { row with idleTimeSeconds := j } := by
    unfold measAfterH31
    rw [hce, h31]
    exact max_le_max le_rfl (sub_le_sub_right hse _)
  have f1 : ⌊measBeforeH24 row / 3600⌋ ≤
      ⌊measBeforeH24 { row with idleTimeSeconds := j } / 3600⌋ :=
    Int.floor_le_floor (by gcongr)
  have f2 : ⌊measAfterH31 row / 3600⌋ ≤
      ⌊measAfterH31 { row with idleTimeSeconds := j } / 3600⌋ :=
    Int.floor_le_floor (by gcongr)
  exact add_le_add f1 f2

/-- Witness for C9: extending the rule-C test vector's idle time from 30
to 32 hours does not decrease the result. -/
theorem C9_monotone_in_idle_witness :
    calculate_billable_idle_hours rowC3 ≤
      calculate_billable_idle_hours { rowC3 with idleTimeSeconds := 115200 } :=
  C9_monotone_in_idle rowC3 115200 (by norm_num [rowC3]) (by norm_num [rowC3])

/-- C10: the evaluator never bills more whole hours than the idle
interval contains: its result is at most `floor(idle_seconds / 3600)`. -/
theorem C10_at_most_idle_hours (row : Row) (hi : 0 ≤ row.idleTimeSeconds) :
    calculate_billable_idle_hours row ≤ ⌊row.idleTimeSeconds / 3600⌋ := by
  rw [calc_eq_perTermFloor row hi]
  have hse : sessionEnd row = chargeEnd row + row.idleTimeSeconds := rfl
  have h31 : hour31FromStartOfDay row = hour24FromStartOfDay row + 25200 :=
    hour31_eq_hour24_add row
  have hsum : measBeforeH24 row + measAfterH31 row ≤ row.idleTimeSeconds := by
    unfold measBeforeH24 measAfterH31
    simp only [max_def, min_def]
    split_ifs <;> linarith
  apply Int.le_floor.mpr
  push_cast
  have f1 := Int.floor_le (measBeforeH24 row / 3600)
  have f2 := Int.floor_le (measAfterH31 row / 3600)
  have hdiv : (measBeforeH24 row + measAfterH31 row) / 3600 ≤
      row.idleTimeSeconds / 3600 := by gcongr
  have hsplit : measBeforeH24 row / 3600 + measAfterH31 row / 3600 =
      (measBeforeH24 row + measAfterH31 row) / 3600 := by ring
  linarith

/-- Witness for C10 at the rule-C spec test vector (23 ≤ 30). -/
theorem C10_at_most_idle_hours_witness :
    calculate_billable_idle_hours rowC3 ≤ ⌊rowC3.idleTimeSeconds / 3600⌋ :=
  C10_at_most_idle_hours rowC3 (by norm_num [rowC3])

section OtherRuleTerms

/-!
Spec-side definitions of the other three catalogued rule terms (for
refinement comparison: the code under `src/` contains only the
day-relative rule, so these follow the specification's words).
-/

/-- Spec-side rule term A (flat): the entire `[charge_end, idle_end)`
interval is chargeable, floored to whole hours. -/
def specTermA (row : Row) : ℤ :=
  ⌊(sessionEnd row - chargeEnd row) / 3600⌋

/-- Midnight immediately following a time point (the start of the next
calendar day). -/
def midnightAfter (t : ℚ) : ℚ := midnightStartOfDay t + 86400

/-- Spec-side rule term B (midnight-crossing): chargeable span
`[charge_end, midnight after charge_end)` only when `idle_end` lies past
that midnight, else 0. -/
def specTermB (row : Row) : ℤ :=
  if midnightAfter (chargeEnd row) < sessionEnd row then
    ⌊(midnightAfter (chargeEnd row) - chargeEnd row) / 3600⌋
  else 0

/-- Time of day of a time point, in seconds since its own midnight. -/
def timeOfDay (t : ℚ) : ℚ := t - midnightStartOfDay t

/-- Spec-side rule term D (free window 00:00-07:00): advance in 1-hour
steps from `charge_end`, one step per whole idle hour, and bill each
step whose start time-of-day is not inside `[00:00, 07:00)`. -/
def specTermD (row : Row) : ℤ :=
  ∑ k ∈ Finset.range (⌊row.idleTimeSeconds / 3600⌋.toNat),
    if 25200 ≤ timeOfDay (chargeEnd row + 3600 * k) then 1 else 0

end OtherRuleTerms

/-- Spec test vector for rule term D: session starting 05:00 with zero
charge duration and exactly 8 hours of idle time; term D expects 6
billable hours (05:00-07:00 free, 07:00-13:00 billed). -/
def rowD : Row :=
  { qrCodeName := "CP-1", powerUsageKwh := 1, sessionStart := 18000,
    chargeTimeSeconds := 0, idleTimeSeconds := 28800 }

/-- C6 counterexample: the deployed evaluator realizes none of rule
terms A, B, D — its output differs from each of their specified results
on concrete well-formed sessions — so the four terms are not supported
as selectable policies. -/
theorem C6_selectable_policy_counterexample :
    calculate_billable_idle_hours rowD ≠ specTermD rowD ∧
    calculate_billable_idle_hours rowC3 ≠ specTermA rowC3 ∧
    calculate_billable_idle_hours rowC3 ≠ specTermB rowC3 := by
  refine ⟨?_, ?_, ?_⟩
  · have hl : calculate_billable_idle_hours rowD = 8 := by
      norm_num [calculate_billable_idle_hours, chargeEnd, sessionEnd,
        hour24FromStartOfDay, hour31FromStartOfDay, midnightStartOfDay, rowD]
    have hr : specTermD rowD = 6 := by
      have h8 : (⌊rowD.idleTimeSeconds / 3600⌋).toNat = 8 := by
        have hf : ⌊rowD.idleTimeSeconds / 3600⌋ = 8 := by norm_num [rowD]
        rw [hf]
        rfl
      unfold specTermD
      rw [h8, Finset.sum_range_succ, Finset.sum_range_succ, Finset.sum_range_succ,
        Finset.sum_range_succ, Finset.sum_range_succ, Finset.sum_range_succ,
        Finset.sum_range_succ, Finset.sum_range_succ, Finset.sum_range_zero]
      norm_num [timeOfDay, chargeEnd, midnightStartOfDay, rowD]
    rw [hl, hr]
    norm_num
  · have hl : calculate_billable_idle_hours rowC3 = 23 := by
      norm_num [calculate_billable_idle_hours, chargeEnd, sessionEnd,
        hour24FromStartOfDay, hour31FromStartOfDay, midnightStartOfDay, rowC3]
    have hr : specTermA rowC3 = 30 := by
      norm_num [specTermA, chargeEnd, sessionEnd, rowC3]
    rw [hl, hr]
    norm_num
  · have hl : calculate_billable_idle_hours rowC3 = 23 := by
      norm_num [calculate_billable_idle_hours, chargeEnd, sessionEnd,
        hour24FromStartOfDay, hour31FromStartOfDay, midnightStartOfDay, rowC3]
    have hr : specTermB rowC3 = 16 := by
      norm_num [specTermB, midnightAfter, chargeEnd, sessionEnd,
        midnightStartOfDay, rowC3]
    rw [hl, hr]
    norm_num

/-- C6 (amended): the code hard-codes a single policy, rule term C: on
the spec's own test vectors it produces rule C's results (23, and 8 for
the flat first-day case) while the other catalogued terms specify 30
(A), 16 (B) and 6 (D) there. -/
theorem C6_only_ruleC_hardcoded :
    calculate_billable_idle_hours rowC3 = 23 ∧
    specTermA rowC3 = 30 ∧
    specTermB rowC3 = 16 ∧
    calculate_billable_idle_hours rowD = 8 ∧
    specTermD rowD = 6 := by
  refine ⟨?_, ?_, ?_, ?_, ?_⟩
  · norm_num [calculate_billable_idle_hours, chargeEnd, sessionEnd,
      hour24FromStartOfDay, hour31FromStartOfDay, midnightStartOfDay, rowC3]
  · norm_num [specTermA, chargeEnd, sessionEnd, rowC3]
  · norm_num [specTermB, midnightAfter, chargeEnd, sessionEnd,
      midnightStartOfDay, rowC3]
  · norm_num [calculate_billable_idle_hours, chargeEnd, sessionEnd,
      hour24FromStartOfDay, hour31FromStartOfDay, midnightStartOfDay, rowD]
  · have h8 : (⌊rowD.idleTimeSeconds / 3600⌋).toNat = 8 := by
      have hf : ⌊rowD.idleTimeSeconds / 3600⌋ = 8 := by norm_num [rowD]
      rw [hf]
      rfl
    unfold specTermD
    rw [h8, Finset.sum_range_succ, Finset.sum_range_succ, Finset.sum_range_succ,
      Finset.sum_range_succ, Finset.sum_range_succ, Finset.sum_range_succ,
      Finset.sum_range_succ, Finset.sum_range_succ, Finset.sum_range_zero]
    norm_num [timeOfDay, chargeEnd, midnightStartOfDay, rowD]

section Aggregation

/-!
Embedding of the per-group cost loop of `src/app.py` (lines 104-128).
The Python literals `0.22` and `5.0` are modelled by the exact rationals
they denote in the source text, matching the claim's reading of the
arithmetic as exact.
-/

/-- One output row of the results table (monetary fields kept exact;
display rounding and string formatting are out of scope). -/
structure GroupResult where
  totalPowerKwh : ℚ
  powerCost : ℚ
  billedIdleHours : ℤ
  idleCost : ℚ
  totalAmount : ℚ
deriving Repr, DecidableEq

/-- Embedding of the inner `for idx, row in group.iterrows()` loop: it
accumulates `total_idle_hours_billed += billable_hours` and
`total_idle_cost += billable_hours * 5.0`, both starting at 0. -/
def idleAccum (rows : List Row) : ℤ × ℚ :=
  rows.foldl
    (fun acc row =>
      (acc.1 + calculate_billable_idle_hours row,
       acc.2 + (calculate_billable_idle_hours row : ℚ) * 5))
    (0, 0)

/-- Embedding of one iteration of the `groupby('QR Code Name')` loop:
`total_power = group['Power Usage (kWh)'].sum()`,
`power_cost = total_power * 0.22`, the idle accumulation loop, and
`total_amount = power_cost + total_idle_cost`. -/
def groupResult (rows : List Row) : GroupResult :=
  let total_power := (rows.map Row.powerUsageKwh).sum
  let power_cost := total_power * (22 / 100)
  let acc := idleAccum rows
  { totalPowerKwh := total_power
    powerCost := power_cost
    billedIdleHours := acc.1
    idleCost := acc.2
    totalAmount := power_cost + acc.2 }

lemma idleAccum_loop (rows : List Row) (a : ℤ) (b : ℚ) :
    (rows.foldl
      (fun acc row =>
        (acc.1 + calculate_billable_idle_hours row,
         acc.2 + (calculate_billable_idle_hours row : ℚ) * 5))
      (a, b)).1 =
      a + (rows.map calculate_billable_idle_hours).sum ∧
    (rows.foldl
      (fun acc row =>
        (acc.1 + calculate_billable_idle_hours row,
         acc.2 + (calculate_billable_idle_hours row : ℚ) * 5))
      (a, b)).2 =
      b + ((rows.map calculate_billable_idle_hours).sum : ℚ) * 5 := by
  induction rows generalizing a b with
  | nil => simp
  | cons r t ih =>
      rw [List.foldl_cons]
      dsimp only
      obtain ⟨ih1, ih2⟩ :=
        ih (a + calculate_billable_idle_hours r)
          (b + (calculate_billable_idle_hours r : ℚ) * 5)
      rw [List.map_cons, List.sum_cons]
      constructor
      · rw [ih1]
        push_cast
        ring
      · rw [ih2]
        push_cast
        ring

end Aggregation

/-- C7: per group, over exact arithmetic, the power cost is total power
times the $0.22/kWh rate, the billed idle hours are the sum of the
per-row billable hours, the idle cost is that sum times the $5.00/hour
rate, and the total cost is exactly power cost plus idle cost. -/
theorem C7_aggregation_exact (rows : List Row) :
    (groupResult rows).powerCost =
      (rows.map Row.powerUsageKwh).sum * (22 / 100) ∧
    (groupResult rows).billedIdleHours =
      (rows.map calculate_billable_idle_hours).sum ∧
    (groupResult rows).idleCost =
      ((rows.map calculate_billable_idle_hours).sum : ℚ) * 5 ∧
    (groupResult rows).totalAmount =
      (groupResult rows).powerCost + (groupResult rows).idleCost := by
  obtain ⟨h1, h2⟩ := idleAccum_loop rows 0 0
  refine ⟨rfl, ?_, ?_, rfl⟩
  · show (idleAccum rows).1 = (rows.map calculate_billable_idle_hours).sum
    unfold idleAccum
    rw [h1]
    ring
  · show (idleAccum rows).2 = ((rows.map calculate_billable_idle_hours).sum : ℚ) * 5
    unfold idleAccum
    rw [h2]
    ring
